import Mathlib

/-!
A verification development for `src/util/glvnd_genentry.c` of libglvnd:
the runtime trampoline (stub) generator for vendor-dispatched entrypoints.

The C module is embedded shallowly:
* machine addresses are `Nat`; the x86 relative-offset computation, which the
  C source performs in the signed pointer-sized type `intptr_t`, is done in
  `Int` and then reduced modulo `2^32` to obtain the stored bit pattern;
* C strings (`char *`) are `Option (List Nat)`: `none` is the null pointer,
  `some bs` a NUL-terminated byte string with content bytes `bs`;
* the per-slot stub memory (16 bytes of the writable slab view) is carried
  inside each record as `stubBytes`, since every write the module performs
  stays inside the 16-byte slot of the record being generated or patched;
* the OS glue (`AllocExecPages` / `FreeExecPages` / `strdup` success) is an
  explicit environment `SysEnv`, and the calls the module makes into the OS
  are reported as an `OSEvent` trace so that claims about "no allocation
  happens" are statable;
* the three compile-time ISA back-ends are a parameter `Arch`; exactly one is
  active per build, matching the `#if defined(USE_..._ASM)` selection.
-/

/-- The three ISA back-ends that can be compiled in (`USE_X86_ASM`,
`USE_X86_64_ASM`, `USE_ARMV7_ASM`). -/
inductive Arch where
  | x86
  | x86_64
  | armv7
deriving DecidableEq, Repr

/-- `GENERATED_ENTRYPOINT_MAX`: the maximum number of entrypoints that can be
generated. -/
def GENERATED_ENTRYPOINT_MAX : Nat := 4096

/-- `STUB_ENTRY_SIZE`: the size in bytes of each generated entrypoint slot. -/
def STUB_ENTRY_SIZE : Nat := 16

/-- The x86 `STUB_TEMPLATE`: `jmp rel32` (opcode `E9` followed by a 4-byte
placeholder offset). -/
def STUB_TEMPLATE_x86 : List Nat := [0xe9, 0x78, 0x56, 0x34, 0x12]

/-- The x86-64 `STUB_TEMPLATE`: `movabs imm64, %rax; jmp *%rax`. -/
def STUB_TEMPLATE_x86_64 : List Nat :=
  [0x48, 0xb8, 0xbd, 0xac, 0xcd, 0xab, 0x78, 0x56, 0x34, 0x12, 0xff, 0xe0]

/-- The ARMv7 Thumb `STUB_TEMPLATE` (`ldr ip, 1f; bx ip; nop;` then a 4-byte
literal), written here as the little-endian byte image of the `uint16_t`
half-word array of the source. -/
def STUB_TEMPLATE_armv7 : List Nat :=
  [0xdf, 0xf8, 0x04, 0xc0, 0x60, 0x47, 0x00, 0xbf, 0x00, 0x00, 0x00, 0x00]

/-- The active `STUB_TEMPLATE` of the build. -/
def stubTemplate : Arch → List Nat
  | Arch.x86 => STUB_TEMPLATE_x86
  | Arch.x86_64 => STUB_TEMPLATE_x86_64
  | Arch.armv7 => STUB_TEMPLATE_armv7

/-- `DISPATCH_FUNC_OFFSET`: the byte offset of the dispatch-address field
inside the stub, per back-end. -/
def DISPATCH_FUNC_OFFSET : Arch → Nat
  | Arch.x86 => 1
  | Arch.x86_64 => 2
  | Arch.armv7 => 8

/-- `DISPATCH_FUNC_OFFSET_REL` (x86 only): the length of the `jmp rel32`
instruction, subtracted when forming the PC-relative offset. -/
def DISPATCH_FUNC_OFFSET_REL : Nat := 5

/-- The width in bytes of a machine pointer for each back-end (`intptr_t` is
4 bytes on x86 and ARMv7, 8 bytes on x86-64). -/
def ptrWidth : Arch → Nat
  | Arch.x86 => 4
  | Arch.x86_64 => 8
  | Arch.armv7 => 4

/-- On ARMv7 the executable pointer handed to callers has the Thumb bit
(bit 0) set; on the other back-ends it does not. -/
def thumbBit : Arch → Nat
  | Arch.armv7 => 1
  | _ => 0

/-- The little-endian byte image of the low `n` bytes of `v`. -/
def leBytes : Nat → Nat → List Nat
  | 0, _ => []
  | n + 1, v => v % 256 :: leBytes n (v / 256)

/-- Store the byte list `bs` into `mem` starting at byte offset `off`
(`List.set` at consecutive indices); bytes outside `[off, off + bs.length)`
are untouched. -/
def storeBytes : List Nat → Nat → List Nat → List Nat
  | mem, _, [] => mem
  | mem, off, b :: bs => storeBytes (mem.set off b) (off + 1) bs

/-- One registry record (`GLVNDGenEntrypointRec`): the owned name, the two
slot addresses, the assigned flag, and the 16 bytes of the slot as seen
through the writable view. -/
structure GLVNDGenEntrypoint where
  procName : Option (List Nat)
  entrypointWrite : Nat
  entrypointExec : Nat
  assigned : Bool
  stubBytes : List Nat
deriving DecidableEq, Repr

instance : Inhabited GLVNDGenEntrypoint :=
  ⟨⟨none, 0, 0, false, []⟩⟩

/-- The module-scope mutable state: the live records (the list plays the part
of the fixed array `entrypoints[]` restricted to indices `< entrypointCount`,
so `entrypointCount` is the list length) and the two slab base pointers
(`entrypointBufferWrite`, `entrypointBufferExec`), each `none` when null. -/
structure GenState where
  entrypoints : List GLVNDGenEntrypoint
  entrypointBufferWrite : Option Nat
  entrypointBufferExec : Option Nat
deriving DecidableEq, Repr

/-- The pristine state of the module at load time: no records, both slab
pointers null. -/
def initState : GenState := ⟨[], none, none⟩

/-- The outcome of the OS-dependent calls a single operation may make:
`AllocExecPages` either yields a pair of base addresses (writable view,
executable view) or fails, and `strdup` either succeeds or returns null. -/
structure SysEnv where
  allocResult : Option (Nat × Nat)
  strdupOk : Bool
deriving Repr

/-- Calls into the OS glue, reported as a trace. -/
inductive OSEvent where
  | allocExecPages (size : Nat)
  | freeExecPages (size : Nat) (writeBase : Option Nat) (execBase : Nat)
  | freeProcName (name : Option (List Nat))
deriving DecidableEq, Repr

/-- `InitEntrypoints`: allocate the slab on first use. Returns `true` on
success (the C function returns 0), the new state, and the OS calls made.
The C code tests `entrypointBufferExec == NULL` to decide whether the slab is
initialised. -/
def InitEntrypoints (env : SysEnv) (st : GenState) :
    Bool × GenState × List OSEvent :=
  match st.entrypointBufferExec with
  | some _ => (true, st, [])
  | none =>
    match env.allocResult with
    | none =>
        (false, st, [OSEvent.allocExecPages (STUB_ENTRY_SIZE * GENERATED_ENTRYPOINT_MAX)])
    | some (writeBuf, execBuf) =>
        (true,
         { st with
            entrypointBufferWrite := some writeBuf
            entrypointBufferExec := some execBuf },
         [OSEvent.allocExecPages (STUB_ENTRY_SIZE * GENERATED_ENTRYPOINT_MAX)])

/-- `SetDispatchFuncPointer`: patch the dispatch-address field of a stub.
On x86 the stored field is the PC-relative offset
`(intptr_t)dispatch - (intptr_t)exec_ptr - 5`, computed in the signed
pointer-sized type and stored as its 4-byte two's-complement little-endian
image; on x86-64 the absolute 8-byte address; on ARMv7 the absolute 4-byte
address (the literal the stub's `ldr` loads). -/
def SetDispatchFuncPointer (arch : Arch) (entry : GLVNDGenEntrypoint)
    (dispatch : Nat) : GLVNDGenEntrypoint :=
  match arch with
  | Arch.x86 =>
      { entry with
          stubBytes :=
            storeBytes entry.stubBytes (DISPATCH_FUNC_OFFSET Arch.x86)
              (leBytes 4
                (((dispatch : Int) - (entry.entrypointExec : Int) -
                    (DISPATCH_FUNC_OFFSET_REL : Int)) % (2 : Int) ^ 32).toNat) }
  | Arch.x86_64 =>
      { entry with
          stubBytes :=
            storeBytes entry.stubBytes (DISPATCH_FUNC_OFFSET Arch.x86_64)
              (leBytes 8 (dispatch % 2 ^ 64)) }
  | Arch.armv7 =>
      { entry with
          stubBytes :=
            storeBytes entry.stubBytes (DISPATCH_FUNC_OFFSET Arch.armv7)
              (leBytes 4 (dispatch % 2 ^ 32)) }

/-- The byte range handed to `__builtin___clear_cache` after an ARMv7 patch:
from `exec_ptr - 1` (the even base address, the Thumb bit removed) to
`exec_ptr - 1 + sizeof(STUB_TEMPLATE)`. -/
def armClearCacheRange (entry : GLVNDGenEntrypoint) : Nat × Nat :=
  (entry.entrypointExec - 1,
   entry.entrypointExec - 1 + STUB_TEMPLATE_armv7.length)

/-- The build-time configuration: the active back-end and the address of
`DefaultDispatchFunc` (a function of the host image, so an arbitrary but
fixed address). -/
structure Config where
  arch : Arch
  defaultDispatch : Nat
deriving Repr

/-- `DefaultDispatchFunc` returns the null sentinel: its behaviour when
called, modelled as the value it returns. -/
def DefaultDispatchFunc : Option Nat := none

/-- `GenerateEntrypointFunc`: fill in a fresh record at slot `index`: compute
the two slot addresses from the slab bases, copy the template into the slot
(the slab memory is fresh-zeroed, so the slot starts as 16 zero bytes), on
ARMv7 set the Thumb bit on the executable pointer, and patch
`DefaultDispatchFunc` in as the initial dispatch target. -/
def GenerateEntrypointFunc (cfg : Config) (st : GenState)
    (entry : GLVNDGenEntrypoint) (index : Nat) : GLVNDGenEntrypoint :=
  let entry1 : GLVNDGenEntrypoint :=
    { entry with
        entrypointWrite :=
          st.entrypointBufferWrite.getD 0 + index * STUB_ENTRY_SIZE
        entrypointExec :=
          st.entrypointBufferExec.getD 0 + index * STUB_ENTRY_SIZE +
            thumbBit cfg.arch
        stubBytes :=
          storeBytes (List.replicate STUB_ENTRY_SIZE 0) 0
            (stubTemplate cfg.arch) }
  SetDispatchFuncPointer cfg.arch entry1 cfg.defaultDispatch

/-- `glvndGenerateEntrypoint`: initialise the slab if needed; linear-scan the
live records for an exact byte-equal name and return the existing executable
pointer on a hit; otherwise, if capacity remains, duplicate the name (which
may fail), emit a fresh stub at slot `entrypointCount`, and append the record.
Returns the executable pointer (or `none` for the C null), the new state, and
the OS calls made. -/
def glvndGenerateEntrypoint (cfg : Config) (env : SysEnv)
    (procName : List Nat) (st : GenState) :
    Option Nat × GenState × List OSEvent :=
  match InitEntrypoints env st with
  | (false, st1, evs) => (none, st1, evs)
  | (true, st1, evs) =>
    match st1.entrypoints.find? (fun e => e.procName == some procName) with
    | some entry => (some entry.entrypointExec, st1, evs)
    | none =>
      if st1.entrypoints.length < GENERATED_ENTRYPOINT_MAX then
        if env.strdupOk then
          let entry0 : GLVNDGenEntrypoint :=
            { procName := some procName
              entrypointWrite := 0
              entrypointExec := 0
              assigned := false
              stubBytes := List.replicate STUB_ENTRY_SIZE 0 }
          let entry := GenerateEntrypointFunc cfg st1 entry0 st1.entrypoints.length
          (some entry.entrypointExec,
           { st1 with entrypoints := st1.entrypoints ++ [entry] }, evs)
        else (none, st1, evs)
      else (none, st1, evs)

/-- The body of the `glvndUpdateEntrypoints` loop over a suffix of the live
records: for each record with `assigned == false`, call the callback with its
name; on a non-null result patch the stub and set `assigned`. Returns the
updated records and the in-order trace of names the callback was invoked on. -/
def updateLoop (arch : Arch) (cb : Option (List Nat) → Option Nat) :
    List GLVNDGenEntrypoint →
      List GLVNDGenEntrypoint × List (Option (List Nat))
  | [] => ([], [])
  | e :: rest =>
    if e.assigned then
      let r := updateLoop arch cb rest
      (e :: r.1, r.2)
    else
      match cb e.procName with
      | some addr =>
          let r := updateLoop arch cb rest
          ({ SetDispatchFuncPointer arch e addr with assigned := true } :: r.1,
           e.procName :: r.2)
      | none =>
          let r := updateLoop arch cb rest
          (e :: r.1, e.procName :: r.2)

/-- `glvndUpdateEntrypoints`: walk the live records in index order and give
every unassigned one a chance to be resolved by the callback. The second
component is the trace of callback invocations (the `procName` argument of
each call, in order). -/
def glvndUpdateEntrypoints (arch : Arch)
    (cb : Option (List Nat) → Option Nat) (st : GenState) :
    GenState × List (Option (List Nat)) :=
  let r := updateLoop arch cb st.entrypoints
  ({ st with entrypoints := r.1 }, r.2)

/-- `glvndFreeEntrypoints`: release every live record's name and clear its
fields, reset the count, and release the slab if it was initialised. The
second component is the trace of OS calls (`free` of each name, then
`FreeExecPages` when the slab was live). -/
def glvndFreeEntrypoints (st : GenState) : GenState × List OSEvent :=
  let nameEvents := st.entrypoints.map (fun e => OSEvent.freeProcName e.procName)
  match st.entrypointBufferExec with
  | some execBase =>
      (⟨[], none, none⟩,
       nameEvents ++
         [OSEvent.freeExecPages (STUB_ENTRY_SIZE * GENERATED_ENTRYPOINT_MAX)
            st.entrypointBufferWrite execBase])
  | none => (⟨[], st.entrypointBufferWrite, none⟩, nameEvents)

/-- The states reachable from the pristine module state by any sequence of
the three public operations, under arbitrary OS behaviour and arbitrary
callbacks. -/
inductive Reachable (cfg : Config) : GenState → Prop where
  | init : Reachable cfg initState
  | gen (env : SysEnv) (name : List Nat) (st : GenState) :
      Reachable cfg st →
      Reachable cfg (glvndGenerateEntrypoint cfg env name st).2.1
  | update (cb : Option (List Nat) → Option Nat) (st : GenState) :
      Reachable cfg st →
      Reachable cfg (glvndUpdateEntrypoints cfg.arch cb st).1
  | teardown (st : GenState) :
      Reachable cfg st →
      Reachable cfg (glvndFreeEntrypoints st).1

/-- The states reachable from a given state without an intervening
`glvndFreeEntrypoints` (generate and update steps only). -/
inductive ReachFrom (cfg : Config) (s : GenState) : GenState → Prop where
  | refl : ReachFrom cfg s s
  | gen (env : SysEnv) (name : List Nat) (t : GenState) :
      ReachFrom cfg s t →
      ReachFrom cfg s (glvndGenerateEntrypoint cfg env name t).2.1
  | update (cb : Option (List Nat) → Option Nat) (t : GenState) :
      ReachFrom cfg s t →
      ReachFrom cfg s (glvndUpdateEntrypoints cfg.arch cb t).1

/-- The effect of one iteration of the `glvndUpdateEntrypoints` loop on a
single record. -/
def updateStep (arch : Arch) (cb : Option (List Nat) → Option Nat)
    (e : GLVNDGenEntrypoint) : GLVNDGenEntrypoint :=
  if e.assigned then e
  else
    match cb e.procName with
    | some addr => { SetDispatchFuncPointer arch e addr with assigned := true }
    | none => e

/-- The record `glvndGenerateEntrypoint` appends on its insert path: the
name just duplicated, a zeroed slot, then `GenerateEntrypointFunc` at slot
`entrypointCount`. -/
def freshEntry (cfg : Config) (st : GenState) (name : List Nat) :
    GLVNDGenEntrypoint :=
  GenerateEntrypointFunc cfg st
    { procName := some name
      entrypointWrite := 0
      entrypointExec := 0
      assigned := false
      stubBytes := List.replicate STUB_ENTRY_SIZE 0 }
    st.entrypoints.length

/-- The module invariant: the two slab pointers are null together; a
non-empty registry implies the slab is live; and every live record has a
non-null name, slot addresses at the arithmetic positions dictated by its
index, and a full 16-byte slot image. -/
def Invariant (cfg : Config) (st : GenState) : Prop :=
  (st.entrypointBufferWrite.isSome ↔ st.entrypointBufferExec.isSome) ∧
  (st.entrypoints ≠ [] → st.entrypointBufferExec.isSome) ∧
  ∀ i e, st.entrypoints[i]? = some e →
    e.procName.isSome = true ∧
    e.entrypointWrite = st.entrypointBufferWrite.getD 0 + i * STUB_ENTRY_SIZE ∧
    e.entrypointExec =
      st.entrypointBufferExec.getD 0 + i * STUB_ENTRY_SIZE + thumbBit cfg.arch ∧
    e.stubBytes.length = STUB_ENTRY_SIZE

/-! ### Byte-level helper lemmas -/

theorem storeBytes_length (bs : List Nat) :
    ∀ (mem : List Nat) (off : Nat), (storeBytes mem off bs).length = mem.length := by
  induction bs with
  | nil => intro mem off; rfl
  | cons b bs ih => intro mem off; simp [storeBytes, ih]

theorem storeBytes_getElem?_low (bs : List Nat) :
    ∀ (mem : List Nat) (off j : Nat), j < off →
      (storeBytes mem off bs)[j]? = mem[j]? := by
  induction bs with
  | nil => intro mem off j _; rfl
  | cons b bs ih =>
    intro mem off j hj
    have h1 : (storeBytes (mem.set off b) (off + 1) bs)[j]? = (mem.set off b)[j]? :=
      ih (mem.set off b) (off + 1) j (Nat.lt_succ_of_lt hj)
    simp only [storeBytes, h1]
    exact List.getElem?_set_ne (Nat.ne_of_gt hj)

theorem storeBytes_getElem?_high (bs : List Nat) :
    ∀ (mem : List Nat) (off j : Nat), off + bs.length ≤ j →
      (storeBytes mem off bs)[j]? = mem[j]? := by
  induction bs with
  | nil => intro mem off j _; rfl
  | cons b bs ih =>
    intro mem off j hj
    simp only [List.length_cons] at hj
    have h1 : (storeBytes (mem.set off b) (off + 1) bs)[j]? = (mem.set off b)[j]? :=
      ih (mem.set off b) (off + 1) j (by omega)
    simp only [storeBytes, h1]
    exact List.getElem?_set_ne (by omega)

theorem storeBytes_getElem?_at (bs : List Nat) :
    ∀ (mem : List Nat) (off k : Nat), k < bs.length → off + bs.length ≤ mem.length →
      (storeBytes mem off bs)[off + k]? = bs[k]? := by
  induction bs with
  | nil => intro mem off k hk _; exact absurd hk (by simp)
  | cons b bs ih =>
    intro mem off k hk hlen
    simp only [List.length_cons] at hk hlen
    cases k with
    | zero =>
      have h1 : (storeBytes (mem.set off b) (off + 1) bs)[off]? =
          (mem.set off b)[off]? :=
        storeBytes_getElem?_low bs (mem.set off b) (off + 1) off (by omega)
      have h2 : (mem.set off b)[off]? = some b :=
        List.getElem?_set_self (by omega)
      simp only [Nat.add_zero, storeBytes, h1, h2, List.getElem?_cons_zero]
    | succ k' =>
      have h1 : (storeBytes (mem.set off b) (off + 1) bs)[(off + 1) + k']? = bs[k']? :=
        ih (mem.set off b) (off + 1) k' (by omega) (by simp; omega)
      have h2 : off + (k' + 1) = (off + 1) + k' := by omega
      simp only [storeBytes, h2, h1, List.getElem?_cons_succ]

theorem leBytes_length (n : Nat) : ∀ v, (leBytes n v).length = n := by
  induction n with
  | zero => intro v; rfl
  | succ n ih => intro v; simp [leBytes, ih]

theorem leBytes_getElem? (n : Nat) :
    ∀ (v k : Nat), k < n → (leBytes n v)[k]? = some (v / 256 ^ k % 256) := by
  induction n with
  | zero => intro v k hk; exact absurd hk (by omega)
  | succ n ih =>
    intro v k hk
    cases k with
    | zero => simp [leBytes]
    | succ k' =>
      have h1 : (leBytes n (v / 256))[k']? = some ((v / 256) / 256 ^ k' % 256) :=
        ih (v / 256) k' (by omega)
      simp only [leBytes, List.getElem?_cons_succ, h1]
      rw [Nat.div_div_eq_div_mul, Nat.pow_succ']

/-! ### First-match characterisation of the linear scan -/

theorem find?_of_first (p : GLVNDGenEntrypoint → Bool) :
    ∀ (l : List GLVNDGenEntrypoint) (i : Nat) (e : GLVNDGenEntrypoint),
      l[i]? = some e → p e = true →
      (∀ j e', j < i → l[j]? = some e' → p e' = false) →
      l.find? p = some e := by
  intro l
  induction l with
  | nil => intro i e he _ _; simp at he
  | cons a l ih =>
    intro i e he hpe hmin
    cases i with
    | zero =>
      simp only [List.getElem?_cons_zero, Option.some.injEq] at he
      subst he
      exact List.find?_cons_of_pos _ hpe
    | succ i' =>
      have hpa : p a = false := hmin 0 a (Nat.succ_pos i') (by simp)
      rw [List.find?_cons_of_neg _ (by simp [hpa])]
      exact ih i' e (by simpa using he) hpe
        (fun j e' hj hje' => hmin (j + 1) e' (by omega) (by simpa using hje'))

theorem first_of_find? (p : GLVNDGenEntrypoint → Bool) :
    ∀ (l : List GLVNDGenEntrypoint) (e : GLVNDGenEntrypoint),
      l.find? p = some e →
      ∃ i : Nat, l[i]? = some e ∧ p e = true ∧
        ∀ (j : Nat) (e' : GLVNDGenEntrypoint), j < i → l[j]? = some e' → p e' = false := by
  intro l
  induction l with
  | nil => intro e he; simp [List.find?] at he
  | cons a l ih =>
    intro e he
    by_cases hpa : p a = true
    · rw [List.find?_cons_of_pos _ hpa] at he
      injection he with he'
      subst he'
      exact ⟨0, by simp, hpa, fun j e' hj _ => absurd hj (Nat.not_lt_zero j)⟩
    · have hpa' : p a = false := by
        cases h : p a
        · rfl
        · exact absurd h hpa
      rw [List.find?_cons_of_neg _ (by simp [hpa'])] at he
      obtain ⟨i, hi, hpe, hmin⟩ := ih e he
      refine ⟨i + 1, by simpa using hi, hpe, ?_⟩
      intro j e' hj hje'
      cases j with
      | zero =>
        simp only [List.getElem?_cons_zero, Option.some.injEq] at hje'
        subst hje'; exact hpa'
      | succ j' =>
        simp only [List.getElem?_cons_succ] at hje'
        exact hmin j' e' (by omega) hje'

/-! ### Field-preservation facts for the emitter and the update step -/

theorem SetDispatchFuncPointer_procName (arch : Arch) (e : GLVNDGenEntrypoint)
    (d : Nat) : (SetDispatchFuncPointer arch e d).procName = e.procName := by
  cases arch <;> rfl

theorem SetDispatchFuncPointer_entrypointWrite (arch : Arch)
    (e : GLVNDGenEntrypoint) (d : Nat) :
    (SetDispatchFuncPointer arch e d).entrypointWrite = e.entrypointWrite := by
  cases arch <;> rfl

theorem SetDispatchFuncPointer_entrypointExec (arch : Arch)
    (e : GLVNDGenEntrypoint) (d : Nat) :
    (SetDispatchFuncPointer arch e d).entrypointExec = e.entrypointExec := by
  cases arch <;> rfl

theorem SetDispatchFuncPointer_assigned (arch : Arch) (e : GLVNDGenEntrypoint)
    (d : Nat) : (SetDispatchFuncPointer arch e d).assigned = e.assigned := by
  cases arch <;> rfl

theorem SetDispatchFuncPointer_stubBytes_length (arch : Arch)
    (e : GLVNDGenEntrypoint) (d : Nat) :
    (SetDispatchFuncPointer arch e d).stubBytes.length = e.stubBytes.length := by
  cases arch <;> simp [SetDispatchFuncPointer, storeBytes_length]

theorem updateStep_procName (arch : Arch) (cb : Option (List Nat) → Option Nat)
    (e : GLVNDGenEntrypoint) : (updateStep arch cb e).procName = e.procName := by
  unfold updateStep
  split
  · rfl
  · cases cb e.procName <;> simp [SetDispatchFuncPointer_procName]

theorem updateStep_entrypointWrite (arch : Arch)
    (cb : Option (List Nat) → Option Nat) (e : GLVNDGenEntrypoint) :
    (updateStep arch cb e).entrypointWrite = e.entrypointWrite := by
  unfold updateStep
  split
  · rfl
  · cases cb e.procName <;> simp [SetDispatchFuncPointer_entrypointWrite]

theorem updateStep_entrypointExec (arch : Arch)
    (cb : Option (List Nat) → Option Nat) (e : GLVNDGenEntrypoint) :
    (updateStep arch cb e).entrypointExec = e.entrypointExec := by
  unfold updateStep
  split
  · rfl
  · cases cb e.procName <;> simp [SetDispatchFuncPointer_entrypointExec]

theorem updateStep_stubBytes_length (arch : Arch)
    (cb : Option (List Nat) → Option Nat) (e : GLVNDGenEntrypoint) :
    (updateStep arch cb e).stubBytes.length = e.stubBytes.length := by
  unfold updateStep
  split
  · rfl
  · cases cb e.procName <;> simp [SetDispatchFuncPointer_stubBytes_length]

/-! ### Basic facts about slab initialisation -/

theorem InitEntrypoints_of_isSome (env : SysEnv) (st : GenState)
    (h : st.entrypointBufferExec.isSome) :
    InitEntrypoints env st = (true, st, []) := by
  obtain ⟨b, hb⟩ := Option.isSome_iff_exists.mp h
  unfold InitEntrypoints
  rw [hb]

theorem InitEntrypoints_false (env : SysEnv) (st st1 : GenState)
    (evs : List OSEvent) (h : InitEntrypoints env st = (false, st1, evs)) :
    st1 = st ∧ st.entrypointBufferExec = none ∧ env.allocResult = none ∧
      evs = [OSEvent.allocExecPages (STUB_ENTRY_SIZE * GENERATED_ENTRYPOINT_MAX)] := by
  unfold InitEntrypoints at h
  cases hE : st.entrypointBufferExec with
  | some b => rw [hE] at h; simp at h
  | none =>
    rw [hE] at h
    cases hA : env.allocResult with
    | none => rw [hA] at h; simp at h; exact ⟨h.1.symm, rfl, rfl, h.2.symm⟩
    | some p => rw [hA] at h; cases p; simp at h

theorem InitEntrypoints_true (cfg : Config) (env : SysEnv) (st st1 : GenState)
    (evs : List OSEvent) (hInv : Invariant cfg st)
    (h : InitEntrypoints env st = (true, st1, evs)) :
    Invariant cfg st1 ∧ st1.entrypointBufferExec.isSome = true ∧
      st1.entrypointBufferWrite.isSome = true ∧
      st1.entrypoints = st.entrypoints := by
  unfold InitEntrypoints at h
  cases hE : st.entrypointBufferExec with
  | some b =>
    rw [hE] at h
    simp only [Prod.mk.injEq, true_and] at h
    obtain ⟨h1, _⟩ := h
    subst h1
    refine ⟨hInv, by simp [hE], ?_, rfl⟩
    have := hInv.1.mpr (by simp [hE])
    simpa using this
  | none =>
    rw [hE] at h
    cases hA : env.allocResult with
    | none => rw [hA] at h; simp at h
    | some p =>
      obtain ⟨w, e⟩ := p
      rw [hA] at h
      simp only [Prod.mk.injEq, true_and] at h
      obtain ⟨h1, _⟩ := h
      subst h1
      have hEmpty : st.entrypoints = [] := by
        by_contra hne
        have := hInv.2.1 hne
        rw [hE] at this
        simp at this
      refine ⟨⟨by simp, by simp, ?_⟩, by simp, by simp, rfl⟩
      intro i e' he'
      simp only [hEmpty] at he'
      simp at he'

/-! ### The shape of the update loop -/

theorem updateLoop_fst (arch : Arch) (cb : Option (List Nat) → Option Nat) :
    ∀ l : List GLVNDGenEntrypoint,
      (updateLoop arch cb l).1 = l.map (updateStep arch cb) := by
  intro l
  induction l with
  | nil => rfl
  | cons e rest ih =>
    cases he : e.assigned with
    | true => simp [updateLoop, updateStep, he, ih]
    | false =>
      cases hcb : cb e.procName with
      | none => simp [updateLoop, updateStep, he, hcb, ih]
      | some addr => simp [updateLoop, updateStep, he, hcb, ih]

theorem updateLoop_snd (arch : Arch) (cb : Option (List Nat) → Option Nat) :
    ∀ l : List GLVNDGenEntrypoint,
      (updateLoop arch cb l).2 =
        (l.filter (fun e => !e.assigned)).map (fun e => e.procName) := by
  intro l
  induction l with
  | nil => rfl
  | cons e rest ih =>
    cases he : e.assigned with
    | true => simp [updateLoop, he, ih]
    | false =>
      cases hcb : cb e.procName with
      | none => simp [updateLoop, he, hcb, ih]
      | some addr => simp [updateLoop, he, hcb, ih]

theorem glvndUpdateEntrypoints_entrypoints (arch : Arch)
    (cb : Option (List Nat) → Option Nat) (st : GenState) :
    (glvndUpdateEntrypoints arch cb st).1.entrypoints =
      st.entrypoints.map (updateStep arch cb) := by
  simp [glvndUpdateEntrypoints, updateLoop_fst]

theorem glvndUpdateEntrypoints_bufferWrite (arch : Arch)
    (cb : Option (List Nat) → Option Nat) (st : GenState) :
    (glvndUpdateEntrypoints arch cb st).1.entrypointBufferWrite =
      st.entrypointBufferWrite := rfl

theorem glvndUpdateEntrypoints_bufferExec (arch : Arch)
    (cb : Option (List Nat) → Option Nat) (st : GenState) :
    (glvndUpdateEntrypoints arch cb st).1.entrypointBufferExec =
      st.entrypointBufferExec := rfl

theorem glvndUpdateEntrypoints_trace (arch : Arch)
    (cb : Option (List Nat) → Option Nat) (st : GenState) :
    (glvndUpdateEntrypoints arch cb st).2 =
      (st.entrypoints.filter (fun e => !e.assigned)).map (fun e => e.procName) := by
  simp [glvndUpdateEntrypoints, updateLoop_snd]

/-! ### Fields of a freshly generated record -/

theorem freshEntry_procName (cfg : Config) (st : GenState) (name : List Nat) :
    (freshEntry cfg st name).procName = some name := by
  simp [freshEntry, GenerateEntrypointFunc, SetDispatchFuncPointer_procName]

theorem freshEntry_entrypointWrite (cfg : Config) (st : GenState) (name : List Nat) :
    (freshEntry cfg st name).entrypointWrite =
      st.entrypointBufferWrite.getD 0 + st.entrypoints.length * STUB_ENTRY_SIZE := by
  simp [freshEntry, GenerateEntrypointFunc, SetDispatchFuncPointer_entrypointWrite]

theorem freshEntry_entrypointExec (cfg : Config) (st : GenState) (name : List Nat) :
    (freshEntry cfg st name).entrypointExec =
      st.entrypointBufferExec.getD 0 + st.entrypoints.length * STUB_ENTRY_SIZE +
        thumbBit cfg.arch := by
  simp [freshEntry, GenerateEntrypointFunc, SetDispatchFuncPointer_entrypointExec]

theorem freshEntry_assigned (cfg : Config) (st : GenState) (name : List Nat) :
    (freshEntry cfg st name).assigned = false := by
  simp [freshEntry, GenerateEntrypointFunc, SetDispatchFuncPointer_assigned]

theorem freshEntry_stubBytes_length (cfg : Config) (st : GenState) (name : List Nat) :
    (freshEntry cfg st name).stubBytes.length = STUB_ENTRY_SIZE := by
  simp [freshEntry, GenerateEntrypointFunc, SetDispatchFuncPointer_stubBytes_length,
    storeBytes_length]

/-! ### Preservation of the module invariant -/

theorem Invariant_initState (cfg : Config) : Invariant cfg initState := by
  refine ⟨by simp [initState], by simp [initState], ?_⟩
  intro i e he
  simp [initState] at he

theorem Invariant_append_fresh (cfg : Config) (st : GenState) (name : List Nat)
    (h : Invariant cfg st) (hW : st.entrypointBufferWrite.isSome = true)
    (hE : st.entrypointBufferExec.isSome = true) :
    Invariant cfg
      { st with entrypoints := st.entrypoints ++ [freshEntry cfg st name] } := by
  obtain ⟨hIff, _, hRec⟩ := h
  refine ⟨hIff, fun _ => hE, ?_⟩
  intro i e he
  simp only at he
  rcases Nat.lt_trichotomy i st.entrypoints.length with hlt | heq | hgt
  · rw [List.getElem?_append_left hlt] at he
    exact hRec i e he
  · subst heq
    rw [List.getElem?_append_right (Nat.le_refl _), Nat.sub_self,
      List.getElem?_cons_zero] at he
    injection he with he'
    subst he'
    exact ⟨by simp [freshEntry_procName],
      by simp [freshEntry_entrypointWrite],
      by simp [freshEntry_entrypointExec],
      freshEntry_stubBytes_length cfg st name⟩
  · rw [List.getElem?_append_right (by omega)] at he
    rw [List.getElem?_eq_none (by simp; omega)] at he
    exact absurd he (by simp)

theorem Invariant_generate (cfg : Config) (env : SysEnv) (name : List Nat)
    (st : GenState) (h : Invariant cfg st) :
    Invariant cfg (glvndGenerateEntrypoint cfg env name st).2.1 := by
  rcases hI : InitEntrypoints env st with ⟨ok, st1, evs⟩
  cases ok with
  | false =>
    obtain ⟨h1, _, _, _⟩ := InitEntrypoints_false env st st1 evs hI
    subst h1
    simp only [glvndGenerateEntrypoint, hI]
    exact h
  | true =>
    obtain ⟨hInv1, hE1, hW1, _⟩ := InitEntrypoints_true cfg env st st1 evs h hI
    simp only [glvndGenerateEntrypoint, hI]
    cases hF : st1.entrypoints.find? (fun e => e.procName == some name) with
    | some entry => simp only [hF]; exact hInv1
    | none =>
      simp only [hF]
      by_cases hLen : st1.entrypoints.length < GENERATED_ENTRYPOINT_MAX
      · cases hS : env.strdupOk with
        | false => simp only [hLen, hS, if_pos, if_true, Bool.false_eq_true,
            if_false]; exact hInv1
        | true =>
          simp only [hLen, hS, if_pos, if_true]
          exact Invariant_append_fresh cfg st1 name hInv1 hW1 hE1
      · simp only [hLen, if_false]; exact hInv1

theorem Invariant_update (cfg : Config) (arch : Arch)
    (cb : Option (List Nat) → Option Nat) (st : GenState) (h : Invariant cfg st) :
    Invariant cfg (glvndUpdateEntrypoints arch cb st).1 := by
  obtain ⟨hIff, hNe, hRec⟩ := h
  refine ⟨?_, ?_, ?_⟩
  · rw [glvndUpdateEntrypoints_bufferWrite, glvndUpdateEntrypoints_bufferExec]
    exact hIff
  · intro hne
    rw [glvndUpdateEntrypoints_bufferExec]
    apply hNe
    rw [glvndUpdateEntrypoints_entrypoints] at hne
    simpa using hne
  · intro i e he
    rw [glvndUpdateEntrypoints_entrypoints, List.getElem?_map] at he
    obtain ⟨e0, he0, hstep⟩ := Option.map_eq_some'.mp he
    obtain ⟨hName, hWr, hEx, hLen⟩ := hRec i e0 he0
    subst hstep
    rw [glvndUpdateEntrypoints_bufferWrite, glvndUpdateEntrypoints_bufferExec]
    exact ⟨by rw [updateStep_procName]; exact hName,
      by rw [updateStep_entrypointWrite]; exact hWr,
      by rw [updateStep_entrypointExec]; exact hEx,
      by rw [updateStep_stubBytes_length]; exact hLen⟩

theorem Invariant_free (cfg : Config) (st : GenState) (h : Invariant cfg st) :
    Invariant cfg (glvndFreeEntrypoints st).1 := by
  obtain ⟨hIff, _, _⟩ := h
  unfold glvndFreeEntrypoints
  cases hE : st.entrypointBufferExec with
  | some b =>
    refine ⟨by simp, by simp, ?_⟩
    intro i e he
    simp at he
  | none =>
    have hW : st.entrypointBufferWrite = none := by
      cases hW : st.entrypointBufferWrite with
      | none => rfl
      | some w =>
        have := hIff.mp (by simp [hW])
        rw [hE] at this
        simp at this
    refine ⟨by simp [hW], by simp, ?_⟩
    intro i e he
    simp at he

theorem Invariant_reachable (cfg : Config) (st : GenState)
    (h : Reachable cfg st) : Invariant cfg st := by
  induction h with
  | init => exact Invariant_initState cfg
  | gen env name st _ ih => exact Invariant_generate cfg env name st ih
  | update cb st _ ih => exact Invariant_update cfg cfg.arch cb st ih
  | teardown st _ ih => exact Invariant_free cfg st ih

/-! ### Shape of a single generate step, and preservation along histories -/

theorem InitEntrypoints_keeps_entrypoints (env : SysEnv) (st : GenState) :
    (InitEntrypoints env st).2.1.entrypoints = st.entrypoints := by
  unfold InitEntrypoints
  cases st.entrypointBufferExec with
  | some b => rfl
  | none =>
    cases env.allocResult with
    | none => rfl
    | some p => cases p; rfl

theorem InitEntrypoints_true_execSome (env : SysEnv) (st st1 : GenState)
    (evs : List OSEvent) (h : InitEntrypoints env st = (true, st1, evs)) :
    st1.entrypointBufferExec.isSome = true := by
  unfold InitEntrypoints at h
  cases hE : st.entrypointBufferExec with
  | some b => rw [hE] at h; simp only [Prod.mk.injEq, true_and] at h; rw [← h.1, hE]; rfl
  | none =>
    rw [hE] at h
    cases hA : env.allocResult with
    | none => rw [hA] at h; simp at h
    | some p =>
      obtain ⟨w, e⟩ := p
      rw [hA] at h
      simp only [Prod.mk.injEq, true_and] at h
      rw [← h.1]
      rfl

theorem generate_extends (cfg : Config) (env : SysEnv) (name : List Nat)
    (st : GenState) :
    ((glvndGenerateEntrypoint cfg env name st).2.1.entrypoints = st.entrypoints ∨
     ∃ E, (glvndGenerateEntrypoint cfg env name st).2.1.entrypoints =
        st.entrypoints ++ [E]) ∧
    (st.entrypointBufferExec.isSome = true →
      (glvndGenerateEntrypoint cfg env name st).2.1.entrypointBufferExec.isSome = true) := by
  rcases hI : InitEntrypoints env st with ⟨ok, st1, evs⟩
  have hKeep : st1.entrypoints = st.entrypoints := by
    have := InitEntrypoints_keeps_entrypoints env st
    rw [hI] at this
    exact this
  cases ok with
  | false =>
    obtain ⟨h1, _, _, _⟩ := InitEntrypoints_false env st st1 evs hI
    subst h1
    simp only [glvndGenerateEntrypoint, hI]
    refine ⟨Or.inl ?_, fun h => h⟩
    simp
  | true =>
    have hE1 : st1.entrypointBufferExec.isSome = true :=
      InitEntrypoints_true_execSome env st st1 evs hI
    simp only [glvndGenerateEntrypoint, hI]
    cases hF : st1.entrypoints.find? (fun e => e.procName == some name) with
    | some entry => simp only [hF]; exact ⟨Or.inl hKeep, fun _ => hE1⟩
    | none =>
      simp only [hF]
      by_cases hLen : st1.entrypoints.length < GENERATED_ENTRYPOINT_MAX
      · cases hS : env.strdupOk with
        | false =>
          simp only [hLen, hS, if_pos, Bool.false_eq_true, if_false]
          exact ⟨Or.inl hKeep, fun _ => hE1⟩
        | true =>
          simp only [hLen, hS, if_pos, if_true]
          refine ⟨Or.inr ⟨freshEntry cfg st1 name, ?_⟩, fun _ => hE1⟩
          simp only [← hKeep]
          rfl
      · simp only [hLen, if_false]
        exact ⟨Or.inl hKeep, fun _ => hE1⟩

theorem ReachFrom_preserves (cfg : Config) (s t : GenState)
    (h : ReachFrom cfg s t) :
    (s.entrypointBufferExec.isSome = true →
      t.entrypointBufferExec.isSome = true) ∧
    ∀ (i : Nat) (e : GLVNDGenEntrypoint), s.entrypoints[i]? = some e →
      ∃ e2, t.entrypoints[i]? = some e2 ∧ e2.procName = e.procName ∧
        e2.entrypointExec = e.entrypointExec := by
  induction h with
  | refl => exact ⟨fun h => h, fun i e he => ⟨e, he, rfl, rfl⟩⟩
  | gen env name t _ ih =>
    obtain ⟨ihE, ihRec⟩ := ih
    obtain ⟨hExt, hB⟩ := generate_extends cfg env name t
    refine ⟨fun hs => hB (ihE hs), ?_⟩
    intro i e he
    obtain ⟨e2, he2, hn2, hx2⟩ := ihRec i e he
    have hi : i < t.entrypoints.length := by
      by_contra hcon
      rw [List.getElem?_eq_none (by omega)] at he2
      exact absurd he2 (by simp)
    cases hExt with
    | inl hsame => exact ⟨e2, by rw [hsame]; exact he2, hn2, hx2⟩
    | inr happ =>
      obtain ⟨E, hE⟩ := happ
      refine ⟨e2, ?_, hn2, hx2⟩
      rw [hE, List.getElem?_append_left hi]
      exact he2
  | update cb t _ ih =>
    obtain ⟨ihE, ihRec⟩ := ih
    refine ⟨fun hs => by rw [glvndUpdateEntrypoints_bufferExec]; exact ihE hs, ?_⟩
    intro i e he
    obtain ⟨e2, he2, hn2, hx2⟩ := ihRec i e he
    refine ⟨updateStep cfg.arch cb e2, ?_, ?_, ?_⟩
    · rw [glvndUpdateEntrypoints_entrypoints, List.getElem?_map, he2]
      rfl
    · rw [updateStep_procName]; exact hn2
    · rw [updateStep_entrypointExec]; exact hx2

/-! ### Branch equations for glvndGenerateEntrypoint -/

theorem generate_eq_of_initfail (cfg : Config) (env : SysEnv) (name : List Nat)
    (st st1 : GenState) (evs : List OSEvent)
    (hI : InitEntrypoints env st = (false, st1, evs)) :
    glvndGenerateEntrypoint cfg env name st = (none, st1, evs) := by
  simp only [glvndGenerateEntrypoint, hI]

theorem generate_eq_of_found (cfg : Config) (env : SysEnv) (name : List Nat)
    (st st1 : GenState) (evs : List OSEvent) (entry : GLVNDGenEntrypoint)
    (hI : InitEntrypoints env st = (true, st1, evs))
    (hF : st1.entrypoints.find? (fun e => e.procName == some name) = some entry) :
    glvndGenerateEntrypoint cfg env name st =
      (some entry.entrypointExec, st1, evs) := by
  simp only [glvndGenerateEntrypoint, hI, hF]

theorem generate_eq_of_insert (cfg : Config) (env : SysEnv) (name : List Nat)
    (st st1 : GenState) (evs : List OSEvent)
    (hI : InitEntrypoints env st = (true, st1, evs))
    (hF : st1.entrypoints.find? (fun e => e.procName == some name) = none)
    (hLen : st1.entrypoints.length < GENERATED_ENTRYPOINT_MAX)
    (hS : env.strdupOk = true) :
    glvndGenerateEntrypoint cfg env name st =
      (some (freshEntry cfg st1 name).entrypointExec,
       { st1 with entrypoints := st1.entrypoints ++ [freshEntry cfg st1 name] },
       evs) := by
  simp only [glvndGenerateEntrypoint, hI, hF, hLen, hS, if_pos, if_true]
  rfl

theorem generate_eq_of_full (cfg : Config) (env : SysEnv) (name : List Nat)
    (st st1 : GenState) (evs : List OSEvent)
    (hI : InitEntrypoints env st = (true, st1, evs))
    (hF : st1.entrypoints.find? (fun e => e.procName == some name) = none)
    (hLen : ¬ st1.entrypoints.length < GENERATED_ENTRYPOINT_MAX) :
    glvndGenerateEntrypoint cfg env name st = (none, st1, evs) := by
  simp only [glvndGenerateEntrypoint, hI, hF, hLen, if_false]

theorem generate_eq_of_strdupfail (cfg : Config) (env : SysEnv) (name : List Nat)
    (st st1 : GenState) (evs : List OSEvent)
    (hI : InitEntrypoints env st = (true, st1, evs))
    (hF : st1.entrypoints.find? (fun e => e.procName == some name) = none)
    (hLen : st1.entrypoints.length < GENERATED_ENTRYPOINT_MAX)
    (hS : env.strdupOk = false) :
    glvndGenerateEntrypoint cfg env name st = (none, st1, evs) := by
  simp only [glvndGenerateEntrypoint, hI, hF, hLen, hS, if_pos,
    Bool.false_eq_true, if_false]

/-- A successful generate leaves the slab live and the returned pointer is
the `exec_ptr` of the first live record whose name is byte-equal to the
query, with no earlier record carrying that name. -/
theorem generate_success_first (cfg : Config) (env : SysEnv) (name : List Nat)
    (st st1 : GenState) (p : Nat) (evs : List OSEvent)
    (h : glvndGenerateEntrypoint cfg env name st = (some p, st1, evs)) :
    st1.entrypointBufferExec.isSome = true ∧
    ∃ (i : Nat) (e : GLVNDGenEntrypoint), st1.entrypoints[i]? = some e ∧
      e.procName = some name ∧ e.entrypointExec = p ∧
      ∀ (j : Nat) (e' : GLVNDGenEntrypoint), j < i →
        st1.entrypoints[j]? = some e' → e'.procName ≠ some name := by
  rcases hI : InitEntrypoints env st with ⟨ok, stA, evsA⟩
  cases ok with
  | false =>
    rw [generate_eq_of_initfail cfg env name st stA evsA hI] at h
    simp at h
  | true =>
    have hEA : stA.entrypointBufferExec.isSome = true :=
      InitEntrypoints_true_execSome env st stA evsA hI
    cases hF : stA.entrypoints.find? (fun e => e.procName == some name) with
    | some entry =>
      rw [generate_eq_of_found cfg env name st stA evsA entry hI hF] at h
      simp only [Prod.mk.injEq, Option.some.injEq] at h
      obtain ⟨hp, hst1, _⟩ := h
      subst hst1
      obtain ⟨i, hi, hpe, hmin⟩ :=
        first_of_find? (fun e => e.procName == some name) stA.entrypoints entry hF
      refine ⟨hEA, i, entry, hi, by simpa using hpe, hp, ?_⟩
      intro j e' hj hje'
      have := hmin j e' hj hje'
      simpa using this
    | none =>
      by_cases hLen : stA.entrypoints.length < GENERATED_ENTRYPOINT_MAX
      · cases hS : env.strdupOk with
        | false =>
          rw [generate_eq_of_strdupfail cfg env name st stA evsA hI hF hLen hS] at h
          simp at h
        | true =>
          rw [generate_eq_of_insert cfg env name st stA evsA hI hF hLen hS] at h
          simp only [Prod.mk.injEq, Option.some.injEq] at h
          obtain ⟨hp, hst1, _⟩ := h
          subst hst1
          refine ⟨hEA, stA.entrypoints.length, freshEntry cfg stA name, ?_, ?_, hp, ?_⟩
          · simp only []
            rw [List.getElem?_append_right (Nat.le_refl _), Nat.sub_self]
            rfl
          · exact freshEntry_procName cfg stA name
          · intro j e' hj hje'
            simp only [] at hje'
            rw [List.getElem?_append_left hj] at hje'
            have hmem : e' ∈ stA.entrypoints := List.getElem?_mem hje'
            have := List.find?_eq_none.mp hF e' hmem
            simpa using this
      · rw [generate_eq_of_full cfg env name st stA evsA hI hF hLen] at h
        simp at h

/-! ### Concrete data used by witnesses -/

/-- A build configuration used by concrete witnesses (x86-64 back-end,
`DefaultDispatchFunc` living at address 999). -/
def demoCfg : Config := ⟨Arch.x86_64, 999⟩

/-- A well-behaved OS for concrete witnesses: the allocator returns the
aliased views at 65536 and 131072, and `strdup` succeeds. -/
def demoEnv : SysEnv := ⟨some (65536, 131072), true⟩

/-- The state after generating the single name `[1]` from the pristine
state under `demoCfg` and `demoEnv`. -/
def demoState1 : GenState :=
  (glvndGenerateEntrypoint demoCfg demoEnv [1] initState).2.1

/-! ### C1 -/

/-- C1: generate is idempotent per name. Once `generate(n)` has returned a
non-null pointer `p`, every subsequent `generate(n)` call — after any
further generate or update activity, but before the next free — finds the
record by the linear scan over live records using exact byte equality of
the name, returns the same pointer `p`, leaves the registry unchanged and
makes no OS call. -/
theorem generate_dedup_idempotent (cfg : Config) (env : SysEnv)
    (name : List Nat) (st st1 st2 : GenState) (p : Nat) (evs : List OSEvent)
    (h : glvndGenerateEntrypoint cfg env name st = (some p, st1, evs))
    (hr : ReachFrom cfg st1 st2) (env' : SysEnv) :
    glvndGenerateEntrypoint cfg env' name st2 = (some p, st2, []) := by
  obtain ⟨hE1, i, e, hi, hn, hx, hmin⟩ :=
    generate_success_first cfg env name st st1 p evs h
  obtain ⟨hEpres, hRec⟩ := ReachFrom_preserves cfg st1 st2 hr
  have hE2 : st2.entrypointBufferExec.isSome = true := hEpres hE1
  obtain ⟨e2, he2, hn2, hx2⟩ := hRec i e hi
  have hiLen : i < st1.entrypoints.length := by
    by_contra hcon
    rw [List.getElem?_eq_none (by omega)] at hi
    exact absurd hi (by simp)
  have hfind : st2.entrypoints.find? (fun x => x.procName == some name) = some e2 := by
    apply find?_of_first _ st2.entrypoints i e2 he2
    · simp [hn2, hn]
    · intro j e' hj hje'
      have hj1 : j < st1.entrypoints.length := by omega
      have hj1some : st1.entrypoints[j]? = some st1.entrypoints[j] :=
        List.getElem?_eq_getElem hj1
      obtain ⟨e2', he2', hn2', _⟩ := hRec j (st1.entrypoints[j]) hj1some
      have hee : e2' = e' := by
        rw [hje'] at he2'
        injection he2' with hval
        exact hval.symm
      have hne : st1.entrypoints[j].procName ≠ some name :=
        hmin j (st1.entrypoints[j]) hj hj1some
      subst hee
      rw [hn2']
      simpa using hne
  have hp2 : e2.entrypointExec = p := by rw [hx2, hx]
  rw [generate_eq_of_found cfg env' name st2 st2 [] e2
    (InitEntrypoints_of_isSome env' st2 hE2) hfind, hp2]

/-- C1 witness: a concrete run under `demoCfg`: the first `generate([1])`
returns the executable pointer 131072 after allocating the slab, and the
immediate repeat returns the same pointer, unchanged state, no OS call. -/
theorem generate_dedup_idempotent_witness :
    glvndGenerateEntrypoint demoCfg demoEnv [1] initState =
      (some 131072, demoState1,
       [OSEvent.allocExecPages (STUB_ENTRY_SIZE * GENERATED_ENTRYPOINT_MAX)]) ∧
    glvndGenerateEntrypoint demoCfg demoEnv [1] demoState1 =
      (some 131072, demoState1, []) :=
  ⟨by decide,
   generate_dedup_idempotent demoCfg demoEnv [1] initState demoState1 demoState1
     131072 [OSEvent.allocExecPages (STUB_ENTRY_SIZE * GENERATED_ENTRYPOINT_MAX)]
     (by decide) ReachFrom.refl demoEnv⟩

/-! ### C2 -/

/-- C2: update invokes the callback exactly once, in index order, for each
live record whose assigned flag is false (the invocation trace is exactly
the in-order list of unassigned records' names); a record whose callback
returns non-null gets that address patched into its stub and its assigned
flag set, a record whose callback returns null stays unchanged and
unassigned, and a record with `assigned == true` is returned untouched —
never re-patched and never the subject of a callback invocation. -/
theorem update_callback_contract (arch : Arch)
    (cb : Option (List Nat) → Option Nat) (st : GenState) :
    (glvndUpdateEntrypoints arch cb st).2 =
      (st.entrypoints.filter (fun e => !e.assigned)).map (fun e => e.procName) ∧
    (glvndUpdateEntrypoints arch cb st).1.entrypoints.length =
      st.entrypoints.length ∧
    ∀ (i : Nat) (e : GLVNDGenEntrypoint), st.entrypoints[i]? = some e →
      (glvndUpdateEntrypoints arch cb st).1.entrypoints[i]? =
        some (if e.assigned then e
              else
                match cb e.procName with
                | some addr =>
                    { SetDispatchFuncPointer arch e addr with assigned := true }
                | none => e) := by
  refine ⟨glvndUpdateEntrypoints_trace arch cb st, ?_, ?_⟩
  · rw [glvndUpdateEntrypoints_entrypoints, List.length_map]
  · intro i e he
    rw [glvndUpdateEntrypoints_entrypoints, List.getElem?_map, he]
    rfl

/-- C2 witness: a two-record registry, one unassigned record named `[1]`
and one already-assigned record named `[2]`; the callback resolves
everything to address 100. The callback is invoked exactly on the
unassigned record, which is patched and marked assigned; the assigned
record is returned untouched. -/
theorem update_callback_contract_witness :
    (glvndUpdateEntrypoints Arch.x86_64 (fun _ => some 100)
        ⟨[⟨some [1], 65536, 131072, false, List.replicate 16 0⟩,
          ⟨some [2], 65552, 131088, true, List.replicate 16 0⟩],
         some 65536, some 131072⟩).2 = [some [1]] ∧
    (⟨[⟨some [1], 65536, 131072, false, List.replicate 16 0⟩,
       ⟨some [2], 65552, 131088, true, List.replicate 16 0⟩],
      some 65536, some 131072⟩ : GenState).entrypoints[1]? =
        some ⟨some [2], 65552, 131088, true, List.replicate 16 0⟩ ∧
    (glvndUpdateEntrypoints Arch.x86_64 (fun _ => some 100)
        ⟨[⟨some [1], 65536, 131072, false, List.replicate 16 0⟩,
          ⟨some [2], 65552, 131088, true, List.replicate 16 0⟩],
         some 65536, some 131072⟩).1.entrypoints[1]? =
      some (if (⟨some [2], 65552, 131088, true, List.replicate 16 0⟩ :
              GLVNDGenEntrypoint).assigned then
              (⟨some [2], 65552, 131088, true, List.replicate 16 0⟩ :
                GLVNDGenEntrypoint)
            else
              match (fun (_ : Option (List Nat)) => some 100)
                  (⟨some [2], 65552, 131088, true, List.replicate 16 0⟩ :
                    GLVNDGenEntrypoint).procName with
              | some addr =>
                  { SetDispatchFuncPointer Arch.x86_64
                      ⟨some [2], 65552, 131088, true, List.replicate 16 0⟩ addr with
                      assigned := true }
              | none =>
                  (⟨some [2], 65552, 131088, true, List.replicate 16 0⟩ :
                    GLVNDGenEntrypoint)) :=
  ⟨by decide,
   by decide,
   (update_callback_contract Arch.x86_64 (fun _ => some 100)
      ⟨[⟨some [1], 65536, 131072, false, List.replicate 16 0⟩,
        ⟨some [2], 65552, 131088, true, List.replicate 16 0⟩],
       some 65536, some 131072⟩).2.2 1
      ⟨some [2], 65552, 131088, true, List.replicate 16 0⟩ (by decide)⟩

/-! ### C4 -/

/-- C4: on the x86 (32-bit) build, patching a stub for target `T` and
executable pointer `E` stores the value `(intptr_t)T - (intptr_t)E - 5`,
computed as a difference in the signed pointer-sized integer type before
truncation, as exactly 4 little-endian bytes at offsets 1 through 4 of the
stub's writable view, and writes no other byte of the 16-byte slot. -/
theorem x86_patch_rel32 (e : GLVNDGenEntrypoint) (target : Nat)
    (hlen : e.stubBytes.length = STUB_ENTRY_SIZE) :
    (∀ k : Nat, k < 4 →
      (SetDispatchFuncPointer Arch.x86 e target).stubBytes[1 + k]? =
        some ((((target : Int) - (e.entrypointExec : Int) - 5) %
            (2 : Int) ^ 32).toNat / 256 ^ k % 256)) ∧
    (∀ j : Nat, j ≠ 1 → j ≠ 2 → j ≠ 3 → j ≠ 4 →
      (SetDispatchFuncPointer Arch.x86 e target).stubBytes[j]? =
        e.stubBytes[j]?) ∧
    (SetDispatchFuncPointer Arch.x86 e target).stubBytes.length =
      STUB_ENTRY_SIZE := by
  have hset : (SetDispatchFuncPointer Arch.x86 e target).stubBytes =
      storeBytes e.stubBytes 1
        (leBytes 4
          ((((target : Int) - (e.entrypointExec : Int) - 5) %
              (2 : Int) ^ 32).toNat)) := by
    simp [SetDispatchFuncPointer, DISPATCH_FUNC_OFFSET, DISPATCH_FUNC_OFFSET_REL]
  refine ⟨?_, ?_, ?_⟩
  · intro k hk
    rw [hset,
      storeBytes_getElem?_at _ _ _ _ (by rw [leBytes_length]; omega)
        (by rw [leBytes_length, hlen, STUB_ENTRY_SIZE]; omega),
      leBytes_getElem? 4 _ k hk]
  · intro j h1 h2 h3 h4
    rw [hset]
    rcases Nat.lt_or_ge j 1 with hj | hj
    · exact storeBytes_getElem?_low _ _ _ _ hj
    · exact storeBytes_getElem?_high _ _ _ _ (by rw [leBytes_length]; omega)
  · rw [hset, storeBytes_length, hlen]

/-- C4 witness: patching target 100 into a concrete zeroed stub whose
executable pointer is 131072: the byte at offset 1 is the low byte of the
wrapped 32-bit offset, the opcode byte at offset 0 is untouched, and the
slot stays 16 bytes. -/
theorem x86_patch_rel32_witness :
    (⟨some [1], 65536, 131072, false, List.replicate 16 0⟩ :
        GLVNDGenEntrypoint).stubBytes.length = STUB_ENTRY_SIZE ∧
    (SetDispatchFuncPointer Arch.x86
        ⟨some [1], 65536, 131072, false, List.replicate 16 0⟩
        100).stubBytes[1 + 0]? =
      some ((((100 : Int) - (131072 : Int) - 5) % (2 : Int) ^ 32).toNat /
          256 ^ 0 % 256) ∧
    (SetDispatchFuncPointer Arch.x86
        ⟨some [1], 65536, 131072, false, List.replicate 16 0⟩
        100).stubBytes[0]? =
      (⟨some [1], 65536, 131072, false, List.replicate 16 0⟩ :
          GLVNDGenEntrypoint).stubBytes[0]? :=
  ⟨by decide,
   (x86_patch_rel32 ⟨some [1], 65536, 131072, false, List.replicate 16 0⟩
      100 (by decide)).1 0 (by decide),
   (x86_patch_rel32 ⟨some [1], 65536, 131072, false, List.replicate 16 0⟩
      100 (by decide)).2.1 0 (by decide) (by decide) (by decide) (by decide)⟩

/-! ### C5 -/

/-- C5: on the ARMv7 Thumb build, in any reachable state whose executable
slab base is even (the OS alignment contract), the executable pointer of
the live record at slot `i` is `exec_base + i*S + 1` — bit 0 set, exactly
what the patch-time assertion checks; patching writes the target as a
32-bit little-endian word at offset 8 of the writable view and touches no
byte outside offsets 8..11; and the cache flush issued after patching
starts at the even base address, the Thumb-adjusted pointer minus 1, never
at the Thumb-adjusted pointer itself. -/
theorem armv7_exec_and_flush (cfg : Config) (st : GenState)
    (harch : cfg.arch = Arch.armv7) (hst : Reachable cfg st)
    (heven : st.entrypointBufferExec.getD 0 % 2 = 0) :
    ∀ (i : Nat) (e : GLVNDGenEntrypoint), st.entrypoints[i]? = some e →
      e.entrypointExec =
        st.entrypointBufferExec.getD 0 + i * STUB_ENTRY_SIZE + 1 ∧
      e.entrypointExec % 2 = 1 ∧
      (∀ target : Nat,
        (armClearCacheRange (SetDispatchFuncPointer Arch.armv7 e target)).1 =
          st.entrypointBufferExec.getD 0 + i * STUB_ENTRY_SIZE ∧
        (armClearCacheRange (SetDispatchFuncPointer Arch.armv7 e target)).1 % 2
          = 0 ∧
        (armClearCacheRange (SetDispatchFuncPointer Arch.armv7 e target)).1 ≠
          e.entrypointExec) ∧
      (∀ target k : Nat, k < 4 →
        (SetDispatchFuncPointer Arch.armv7 e target).stubBytes[8 + k]? =
          some (target % 2 ^ 32 / 256 ^ k % 256)) ∧
      (∀ target j : Nat, j < 8 ∨ 12 ≤ j →
        (SetDispatchFuncPointer Arch.armv7 e target).stubBytes[j]? =
          e.stubBytes[j]?) := by
  intro i e he
  obtain ⟨_, _, hRec⟩ := Invariant_reachable cfg st hst
  obtain ⟨_, _, hEx, hLen⟩ := hRec i e he
  rw [harch] at hEx
  simp only [thumbBit] at hEx
  have hsetB : ∀ target : Nat,
      (SetDispatchFuncPointer Arch.armv7 e target).stubBytes =
        storeBytes e.stubBytes 8 (leBytes 4 (target % 2 ^ 32)) := by
    intro target
    simp [SetDispatchFuncPointer, DISPATCH_FUNC_OFFSET]
  have hflush : ∀ target : Nat,
      (armClearCacheRange (SetDispatchFuncPointer Arch.armv7 e target)).1 =
        e.entrypointExec - 1 := by
    intro target
    simp [armClearCacheRange, SetDispatchFuncPointer_entrypointExec]
  refine ⟨hEx, ?_, ?_, ?_, ?_⟩
  · rw [hEx]
    simp only [STUB_ENTRY_SIZE] at *
    omega
  · intro target
    rw [hflush target, hEx]
    simp only [STUB_ENTRY_SIZE] at *
    refine ⟨by omega, by omega, by omega⟩
  · intro target k hk
    rw [hsetB target,
      storeBytes_getElem?_at _ _ _ _ (by rw [leBytes_length]; omega)
        (by rw [leBytes_length, hLen, STUB_ENTRY_SIZE]; omega),
      leBytes_getElem? 4 _ k hk]
  · intro target j hj
    rw [hsetB target]
    cases hj with
    | inl hlow => exact storeBytes_getElem?_low _ _ _ _ hlow
    | inr hhigh =>
      exact storeBytes_getElem?_high _ _ _ _ (by rw [leBytes_length]; omega)

/-- A build configuration with the ARMv7 Thumb back-end, used by the C5
witness. -/
def demoCfgArm : Config := ⟨Arch.armv7, 999⟩

/-- The state after generating the single name `[1]` from the pristine
state under the ARMv7 configuration. -/
def demoStateArm : GenState :=
  (glvndGenerateEntrypoint demoCfgArm demoEnv [1] initState).2.1

/-- The single live record of `demoStateArm`. -/
def demoArmEntry : GLVNDGenEntrypoint := demoStateArm.entrypoints.getD 0 default

/-- C5 witness: in the concrete reachable ARMv7 state, slot 0's executable
pointer is the even base plus one, the flush range starts one byte below it
at the even address, the patched literal's low byte sits at offset 8, and
byte 0 of the slot is untouched by a patch of target 100. -/
theorem armv7_exec_and_flush_witness :
    demoCfgArm.arch = Arch.armv7 ∧
    demoStateArm.entrypointBufferExec.getD 0 % 2 = 0 ∧
    demoStateArm.entrypoints[0]? = some demoArmEntry ∧
    demoArmEntry.entrypointExec =
      demoStateArm.entrypointBufferExec.getD 0 + 0 * STUB_ENTRY_SIZE + 1 ∧
    demoArmEntry.entrypointExec % 2 = 1 ∧
    (armClearCacheRange (SetDispatchFuncPointer Arch.armv7 demoArmEntry 100)).1 =
      demoStateArm.entrypointBufferExec.getD 0 + 0 * STUB_ENTRY_SIZE ∧
    (armClearCacheRange (SetDispatchFuncPointer Arch.armv7 demoArmEntry 100)).1 ≠
      demoArmEntry.entrypointExec ∧
    (SetDispatchFuncPointer Arch.armv7 demoArmEntry 100).stubBytes[8 + 0]? =
      some (100 % 2 ^ 32 / 256 ^ 0 % 256) ∧
    (SetDispatchFuncPointer Arch.armv7 demoArmEntry 100).stubBytes[0]? =
      demoArmEntry.stubBytes[0]? :=
  ⟨rfl, by decide, by decide,
   (armv7_exec_and_flush demoCfgArm demoStateArm rfl
      (Reachable.gen demoEnv [1] initState Reachable.init) (by decide)
      0 demoArmEntry (by decide)).1,
   (armv7_exec_and_flush demoCfgArm demoStateArm rfl
      (Reachable.gen demoEnv [1] initState Reachable.init) (by decide)
      0 demoArmEntry (by decide)).2.1,
   ((armv7_exec_and_flush demoCfgArm demoStateArm rfl
      (Reachable.gen demoEnv [1] initState Reachable.init) (by decide)
      0 demoArmEntry (by decide)).2.2.1 100).1,
   ((armv7_exec_and_flush demoCfgArm demoStateArm rfl
      (Reachable.gen demoEnv [1] initState Reachable.init) (by decide)
      0 demoArmEntry (by decide)).2.2.1 100).2.2,
   (armv7_exec_and_flush demoCfgArm demoStateArm rfl
      (Reachable.gen demoEnv [1] initState Reachable.init) (by decide)
      0 demoArmEntry (by decide)).2.2.2.1 100 0 (by decide),
   (armv7_exec_and_flush demoCfgArm demoStateArm rfl
      (Reachable.gen demoEnv [1] initState Reachable.init) (by decide)
      0 demoArmEntry (by decide)).2.2.2.2 100 0 (Or.inl (by decide))⟩

/-! ### C6 -/

/-- C6: for every live record index `i < count`, the writable pointer is
`write_base + i*S` and the executable pointer is `exec_base + i*S` (plus 1,
the Thumb bit, on ARMv7), with `S = 16`; consequently stub addresses are
strictly monotonic in issue order, and each issued executable pointer is
stable — preserved at its index through any further generate and update
activity until teardown. -/
theorem record_pointer_layout (cfg : Config) (st : GenState)
    (hst : Reachable cfg st) :
    STUB_ENTRY_SIZE = 16 ∧
    (∀ (i : Nat) (e : GLVNDGenEntrypoint), st.entrypoints[i]? = some e →
      e.entrypointWrite =
        st.entrypointBufferWrite.getD 0 + i * STUB_ENTRY_SIZE ∧
      e.entrypointExec =
        st.entrypointBufferExec.getD 0 + i * STUB_ENTRY_SIZE +
          thumbBit cfg.arch) ∧
    (∀ (i j : Nat) (ei ej : GLVNDGenEntrypoint),
      st.entrypoints[i]? = some ei → st.entrypoints[j]? = some ej → i < j →
      ei.entrypointWrite < ej.entrypointWrite ∧
      ei.entrypointExec < ej.entrypointExec) ∧
    (∀ st2, ReachFrom cfg st st2 →
      ∀ (i : Nat) (e : GLVNDGenEntrypoint), st.entrypoints[i]? = some e →
        ∃ e2, st2.entrypoints[i]? = some e2 ∧
          e2.entrypointExec = e.entrypointExec) := by
  obtain ⟨_, _, hRec⟩ := Invariant_reachable cfg st hst
  refine ⟨rfl, ?_, ?_, ?_⟩
  · intro i e he
    obtain ⟨_, hW, hE, _⟩ := hRec i e he
    exact ⟨hW, hE⟩
  · intro i j ei ej hei hej hij
    obtain ⟨_, hWi, hEi, _⟩ := hRec i ei hei
    obtain ⟨_, hWj, hEj, _⟩ := hRec j ej hej
    rw [hWi, hWj, hEi, hEj]
    simp only [STUB_ENTRY_SIZE]
    omega
  · intro st2 hr i e he
    obtain ⟨e2, he2, _, hx2⟩ := (ReachFrom_preserves cfg st st2 hr).2 i e he
    exact ⟨e2, he2, hx2⟩

/-- The state after additionally generating the name `[2]`, so two live
records exist. -/
def demoState2 : GenState :=
  (glvndGenerateEntrypoint demoCfg demoEnv [2] demoState1).2.1

/-- Record 0 of `demoState2`. -/
def demoEntry0 : GLVNDGenEntrypoint := demoState2.entrypoints.getD 0 default

/-- Record 1 of `demoState2`. -/
def demoEntry1 : GLVNDGenEntrypoint := demoState2.entrypoints.getD 1 default

/-- C6 witness: in the concrete two-record reachable state, record 1 sits
exactly one 16-byte slot above the bases, and both of its pointers are
strictly above record 0's. -/
theorem record_pointer_layout_witness :
    demoState2.entrypoints[0]? = some demoEntry0 ∧
    demoState2.entrypoints[1]? = some demoEntry1 ∧
    (demoEntry1.entrypointWrite =
        demoState2.entrypointBufferWrite.getD 0 + 1 * STUB_ENTRY_SIZE ∧
      demoEntry1.entrypointExec =
        demoState2.entrypointBufferExec.getD 0 + 1 * STUB_ENTRY_SIZE +
          thumbBit demoCfg.arch) ∧
    (demoEntry0.entrypointWrite < demoEntry1.entrypointWrite ∧
      demoEntry0.entrypointExec < demoEntry1.entrypointExec) :=
  ⟨by decide, by decide,
   (record_pointer_layout demoCfg demoState2
      (Reachable.gen demoEnv [2] demoState1
        (Reachable.gen demoEnv [1] initState Reachable.init))).2.1
      1 demoEntry1 (by decide),
   (record_pointer_layout demoCfg demoState2
      (Reachable.gen demoEnv [2] demoState1
        (Reachable.gen demoEnv [1] initState Reachable.init))).2.2.1
      0 1 demoEntry0 demoEntry1 (by decide) (by decide) (by decide)⟩

/-! ### C10 -/

/-- C10: in every state reachable by any sequence of generate, update and
free calls, every live record (index `< count`) has a non-null name:
generate increments the count only after the name copy succeeded, and free
only clears names of records it simultaneously removes from the live
range. The name comparison in generate's dedup scan therefore never reads
through a null name. -/
theorem live_names_nonnull (cfg : Config) (st : GenState)
    (hst : Reachable cfg st) :
    ∀ (i : Nat) (e : GLVNDGenEntrypoint), st.entrypoints[i]? = some e →
      e.procName ≠ none := by
  intro i e he
  obtain ⟨_, _, hRec⟩ := Invariant_reachable cfg st hst
  have hname := (hRec i e he).1
  intro hcon
  rw [hcon] at hname
  simp at hname

/-- C10 witness: the single record of the concrete reachable state has the
non-null name it was generated under. -/
theorem live_names_nonnull_witness :
    demoState1.entrypoints[0]? = some (demoState1.entrypoints.getD 0 default) ∧
    (demoState1.entrypoints.getD 0 default).procName ≠ none :=
  ⟨by decide,
   live_names_nonnull demoCfg demoState1
     (Reachable.gen demoEnv [1] initState Reachable.init)
     0 (demoState1.entrypoints.getD 0 default) (by decide)⟩

/-! ### C3 -/

/-- C3: with `N = GENERATED_ENTRYPOINT_MAX = 4096`: generate on a fresh
name when `count == N` returns null and leaves the count at `N` with every
existing record unchanged; and while `count < N`, a fresh name under a
working OS succeeds, appending exactly one record and leaving every prior
record unchanged — so the first `N` distinct names succeed and remain
valid and the `(N+1)`-th distinct name returns null. -/
theorem generate_capacity_bound (cfg : Config) (env : SysEnv)
    (name : List Nat) (st : GenState) :
    GENERATED_ENTRYPOINT_MAX = 4096 ∧
    (st.entrypoints.length = GENERATED_ENTRYPOINT_MAX →
      st.entrypoints.find? (fun e => e.procName == some name) = none →
      (glvndGenerateEntrypoint cfg env name st).1 = none ∧
      (glvndGenerateEntrypoint cfg env name st).2.1.entrypoints =
        st.entrypoints) ∧
    (st.entrypoints.length < GENERATED_ENTRYPOINT_MAX →
      st.entrypoints.find? (fun e => e.procName == some name) = none →
      env.strdupOk = true →
      (st.entrypointBufferExec.isSome = true ∨ env.allocResult.isSome = true) →
      (glvndGenerateEntrypoint cfg env name st).1 ≠ none ∧
      (glvndGenerateEntrypoint cfg env name st).2.1.entrypoints.length =
        st.entrypoints.length + 1 ∧
      ∀ (i : Nat) (e : GLVNDGenEntrypoint), st.entrypoints[i]? = some e →
        (glvndGenerateEntrypoint cfg env name st).2.1.entrypoints[i]? =
          some e) := by
  refine ⟨rfl, ?_, ?_⟩
  · intro hLen hF
    rcases hI : InitEntrypoints env st with ⟨ok, st1, evs⟩
    have hKeep : st1.entrypoints = st.entrypoints := by
      have := InitEntrypoints_keeps_entrypoints env st
      rw [hI] at this
      exact this
    cases ok with
    | false =>
      rw [generate_eq_of_initfail cfg env name st st1 evs hI]
      exact ⟨rfl, hKeep⟩
    | true =>
      have hF1 : st1.entrypoints.find? (fun e => e.procName == some name) = none := by
        rw [hKeep]; exact hF
      have hLen1 : ¬ st1.entrypoints.length < GENERATED_ENTRYPOINT_MAX := by
        rw [hKeep, hLen]; omega
      rw [generate_eq_of_full cfg env name st st1 evs hI hF1 hLen1]
      exact ⟨rfl, hKeep⟩
  · intro hLen hF hS hOS
    rcases hI : InitEntrypoints env st with ⟨ok, st1, evs⟩
    have hKeep : st1.entrypoints = st.entrypoints := by
      have := InitEntrypoints_keeps_entrypoints env st
      rw [hI] at this
      exact this
    cases ok with
    | false =>
      obtain ⟨_, hE, hA, _⟩ := InitEntrypoints_false env st st1 evs hI
      rw [hE] at hOS
      rw [hA] at hOS
      simp at hOS
    | true =>
      have hF1 : st1.entrypoints.find? (fun e => e.procName == some name) = none := by
        rw [hKeep]; exact hF
      have hLen1 : st1.entrypoints.length < GENERATED_ENTRYPOINT_MAX := by
        rw [hKeep]; exact hLen
      rw [generate_eq_of_insert cfg env name st st1 evs hI hF1 hLen1 hS]
      refine ⟨by simp, by simp [hKeep], ?_⟩
      intro i e he
      have hi : i < st.entrypoints.length := by
        by_contra hcon
        rw [List.getElem?_eq_none (by omega)] at he
        exact absurd he (by simp)
      simp only []
      rw [hKeep, List.getElem?_append_left hi]
      exact he

/-- 4096 live records with pairwise distinct names. -/
def fullEntries : List GLVNDGenEntrypoint :=
  (List.range GENERATED_ENTRYPOINT_MAX).map
    (fun i => ⟨some [i], 65536 + i * 16, 131072 + i * 16, false, []⟩)

/-- A registry at full capacity. -/
def fullState : GenState := ⟨fullEntries, some 65536, some 131072⟩

theorem GenState_mk_entrypoints (es : List GLVNDGenEntrypoint)
    (w e : Option Nat) : (GenState.mk es w e).entrypoints = es := rfl

theorem fullState_entrypoints : fullState.entrypoints = fullEntries := by
  unfold fullState
  rw [GenState_mk_entrypoints]

theorem fullState_length :
    fullState.entrypoints.length = GENERATED_ENTRYPOINT_MAX := by
  rw [fullState_entrypoints, fullEntries, List.length_map, List.length_range]

theorem fullState_fresh :
    fullState.entrypoints.find? (fun e => e.procName == some [4096]) = none := by
  rw [fullState_entrypoints]
  rw [List.find?_eq_none]
  intro x hx
  obtain ⟨i, hiR, hxe⟩ := List.mem_map.mp hx
  have hi : i < GENERATED_ENTRYPOINT_MAX := List.mem_range.mp hiR
  subst hxe
  intro hbeq
  have h1 : ([i] : List Nat) = [4096] := by simpa using hbeq
  have h2 : i = 4096 := by simpa using h1
  rw [GENERATED_ENTRYPOINT_MAX] at hi
  omega

/-- C3 witness: on the concrete full registry the fresh name `[4096]` is
rejected with the registry untouched, while on the empty registry a fresh
name succeeds and the count grows to 1. -/
theorem generate_capacity_bound_witness :
    (fullState.entrypoints.length = GENERATED_ENTRYPOINT_MAX ∧
     fullState.entrypoints.find? (fun e => e.procName == some [4096]) = none ∧
     (glvndGenerateEntrypoint demoCfg demoEnv [4096] fullState).1 = none ∧
     (glvndGenerateEntrypoint demoCfg demoEnv [4096] fullState).2.1.entrypoints =
       fullState.entrypoints) ∧
    (initState.entrypoints.length < GENERATED_ENTRYPOINT_MAX ∧
     (glvndGenerateEntrypoint demoCfg demoEnv [1] initState).1 ≠ none ∧
     (glvndGenerateEntrypoint demoCfg demoEnv [1] initState).2.1.entrypoints.length =
       initState.entrypoints.length + 1) :=
  ⟨⟨fullState_length,
    fullState_fresh,
    (generate_capacity_bound demoCfg demoEnv [4096] fullState).2.1
      fullState_length fullState_fresh⟩,
   ⟨by decide,
    ((generate_capacity_bound demoCfg demoEnv [1] initState).2.2
      (by decide) (by decide) (by decide) (Or.inr (by decide))).1,
    ((generate_capacity_bound demoCfg demoEnv [1] initState).2.2
      (by decide) (by decide) (by decide) (Or.inr (by decide))).2.1⟩⟩

/-! ### C7 -/

/-- C7: if the name copy (`strdup`) fails on generate's insert path, the
call returns null, the count is unchanged and no record is modified — with
the slab already live the whole module state is exactly as before the
call; on the success path the appended record is the template-filled slot
with the default dispatch function patched in as its target and
`assigned == false`, created before the count is incremented. -/
theorem generate_name_copy (cfg : Config) (env : SysEnv) (name : List Nat)
    (st : GenState) :
    (env.strdupOk = false →
      st.entrypoints.find? (fun e => e.procName == some name) = none →
      st.entrypoints.length < GENERATED_ENTRYPOINT_MAX →
      (glvndGenerateEntrypoint cfg env name st).1 = none ∧
      (glvndGenerateEntrypoint cfg env name st).2.1.entrypoints =
        st.entrypoints ∧
      (st.entrypointBufferExec.isSome = true →
        (glvndGenerateEntrypoint cfg env name st).2.1 = st)) ∧
    (env.strdupOk = true →
      st.entrypoints.find? (fun e => e.procName == some name) = none →
      st.entrypoints.length < GENERATED_ENTRYPOINT_MAX →
      st.entrypointBufferExec.isSome = true →
      (glvndGenerateEntrypoint cfg env name st).2.1.entrypoints =
        st.entrypoints ++
          [SetDispatchFuncPointer cfg.arch
             { procName := some name
               entrypointWrite := st.entrypointBufferWrite.getD 0 +
                 st.entrypoints.length * STUB_ENTRY_SIZE
               entrypointExec := st.entrypointBufferExec.getD 0 +
                 st.entrypoints.length * STUB_ENTRY_SIZE + thumbBit cfg.arch
               assigned := false
               stubBytes := storeBytes (List.replicate STUB_ENTRY_SIZE 0) 0
                 (stubTemplate cfg.arch) }
             cfg.defaultDispatch] ∧
      (freshEntry cfg st name).assigned = false) := by
  constructor
  · intro hS hF hLen
    rcases hI : InitEntrypoints env st with ⟨ok, st1, evs⟩
    have hKeep : st1.entrypoints = st.entrypoints := by
      have := InitEntrypoints_keeps_entrypoints env st
      rw [hI] at this
      exact this
    cases ok with
    | false =>
      obtain ⟨_, hE, _, _⟩ := InitEntrypoints_false env st st1 evs hI
      rw [generate_eq_of_initfail cfg env name st st1 evs hI]
      refine ⟨rfl, hKeep, ?_⟩
      intro hx
      rw [hE] at hx
      simp at hx
    | true =>
      have hF1 : st1.entrypoints.find? (fun e => e.procName == some name) = none := by
        rw [hKeep]; exact hF
      have hLen1 : st1.entrypoints.length < GENERATED_ENTRYPOINT_MAX := by
        rw [hKeep]; exact hLen
      rw [generate_eq_of_strdupfail cfg env name st st1 evs hI hF1 hLen1 hS]
      refine ⟨rfl, hKeep, ?_⟩
      intro hx
      have h2 := InitEntrypoints_of_isSome env st hx
      rw [h2] at hI
      simp only [Prod.mk.injEq, true_and] at hI
      exact hI.1.symm
  · intro hS hF hLen hx
    have hI : InitEntrypoints env st = (true, st, []) :=
      InitEntrypoints_of_isSome env st hx
    rw [generate_eq_of_insert cfg env name st st [] hI hF hLen hS]
    exact ⟨rfl, freshEntry_assigned cfg st name⟩

/-- C7 witness: with `strdup` failing, generate on the initialised
one-record state returns null and leaves the state untouched; with it
succeeding, the appended record carries the default dispatch target and is
unassigned. -/
theorem generate_name_copy_witness :
    ((⟨none, true⟩ : SysEnv).strdupOk = true ∧
     demoState1.entrypoints.find? (fun e => e.procName == some [2]) = none ∧
     demoState1.entrypoints.length < GENERATED_ENTRYPOINT_MAX ∧
     demoState1.entrypointBufferExec.isSome = true ∧
     (glvndGenerateEntrypoint demoCfg ⟨none, true⟩ [2] demoState1).2.1.entrypoints =
       demoState1.entrypoints ++
         [SetDispatchFuncPointer demoCfg.arch
            { procName := some [2]
              entrypointWrite := demoState1.entrypointBufferWrite.getD 0 +
                demoState1.entrypoints.length * STUB_ENTRY_SIZE
              entrypointExec := demoState1.entrypointBufferExec.getD 0 +
                demoState1.entrypoints.length * STUB_ENTRY_SIZE +
                  thumbBit demoCfg.arch
              assigned := false
              stubBytes := storeBytes (List.replicate STUB_ENTRY_SIZE 0) 0
                (stubTemplate demoCfg.arch) }
            demoCfg.defaultDispatch] ∧
     (freshEntry demoCfg demoState1 [2]).assigned = false) ∧
    ((⟨some (65536, 131072), false⟩ : SysEnv).strdupOk = false ∧
     (glvndGenerateEntrypoint demoCfg ⟨some (65536, 131072), false⟩ [2]
        demoState1).1 = none ∧
     (glvndGenerateEntrypoint demoCfg ⟨some (65536, 131072), false⟩ [2]
        demoState1).2.1 = demoState1) :=
  ⟨⟨by decide, by decide, by decide, by decide,
    ((generate_name_copy demoCfg ⟨none, true⟩ [2] demoState1).2
      (by decide) (by decide) (by decide) (by decide)).1,
    ((generate_name_copy demoCfg ⟨none, true⟩ [2] demoState1).2
      (by decide) (by decide) (by decide) (by decide)).2⟩,
   ⟨by decide,
    ((generate_name_copy demoCfg ⟨some (65536, 131072), false⟩ [2]
        demoState1).1 (by decide) (by decide) (by decide)).1,
    ((generate_name_copy demoCfg ⟨some (65536, 131072), false⟩ [2]
        demoState1).1 (by decide) (by decide) (by decide)).2.2 (by decide)⟩⟩

/-! ### C8 -/

theorem glvndFreeEntrypoints_cleared (s : GenState) :
    (glvndFreeEntrypoints s).1.entrypoints = [] ∧
    (glvndFreeEntrypoints s).1.entrypointBufferExec = none := by
  unfold glvndFreeEntrypoints
  cases s.entrypointBufferExec <;> simp

theorem glvndFreeEntrypoints_noop (s : GenState) (h1 : s.entrypoints = [])
    (h2 : s.entrypointBufferExec = none) :
    glvndFreeEntrypoints s = (s, []) := by
  obtain ⟨es, wv, ev⟩ := s
  have h1' : es = [] := h1
  have h2' : ev = none := h2
  subst h1'
  subst h2'
  rfl

/-- C8: free is idempotent — after one free, a second free returns the same
state and performs no OS call — and free on the never-initialised module is
a no-op performing no allocation and no deallocation; after a free no
record remains and the slab is released (with a live slab the state
returns exactly to the pristine one), and a subsequent generate under a
working OS succeeds starting fresh from slot 0, returning the stub of the
newly mapped slab's first slot. -/
theorem free_teardown (st : GenState) (cfg : Config) (env : SysEnv)
    (name : List Nat) (w e : Nat) (halloc : env.allocResult = some (w, e))
    (hs : env.strdupOk = true) :
    (glvndFreeEntrypoints (glvndFreeEntrypoints st).1).1 =
      (glvndFreeEntrypoints st).1 ∧
    (glvndFreeEntrypoints (glvndFreeEntrypoints st).1).2 = [] ∧
    glvndFreeEntrypoints initState = (initState, []) ∧
    (glvndFreeEntrypoints st).1.entrypoints = [] ∧
    (glvndFreeEntrypoints st).1.entrypointBufferExec = none ∧
    (st.entrypointBufferExec.isSome = true →
      (glvndFreeEntrypoints st).1 = initState) ∧
    (glvndGenerateEntrypoint cfg env name (glvndFreeEntrypoints st).1).1 =
      some (e + thumbBit cfg.arch) ∧
    (glvndGenerateEntrypoint cfg env name
        (glvndFreeEntrypoints st).1).2.1.entrypoints.length = 1 := by
  obtain ⟨hf1, hf2⟩ := glvndFreeEntrypoints_cleared st
  have hTwo := glvndFreeEntrypoints_noop (glvndFreeEntrypoints st).1 hf1 hf2
  have hI : InitEntrypoints env (glvndFreeEntrypoints st).1 =
      (true,
       { (glvndFreeEntrypoints st).1 with
          entrypointBufferWrite := some w
          entrypointBufferExec := some e },
       [OSEvent.allocExecPages (STUB_ENTRY_SIZE * GENERATED_ENTRYPOINT_MAX)]) := by
    unfold InitEntrypoints
    rw [hf2, halloc]
  have hMid1 : ({ (glvndFreeEntrypoints st).1 with
      entrypointBufferWrite := some w
      entrypointBufferExec := some e } : GenState).entrypoints = [] := hf1
  have hF : ({ (glvndFreeEntrypoints st).1 with
      entrypointBufferWrite := some w
      entrypointBufferExec := some e } : GenState).entrypoints.find?
        (fun x => x.procName == some name) = none := by
    rw [hMid1]
    rfl
  have hLen : ({ (glvndFreeEntrypoints st).1 with
      entrypointBufferWrite := some w
      entrypointBufferExec := some e } : GenState).entrypoints.length <
        GENERATED_ENTRYPOINT_MAX := by
    rw [hMid1]
    decide
  have hGen := generate_eq_of_insert cfg env name (glvndFreeEntrypoints st).1
    _ _ hI hF hLen hs
  refine ⟨by rw [hTwo], by rw [hTwo],
    glvndFreeEntrypoints_noop initState rfl rfl, hf1, hf2, ?_, ?_, ?_⟩
  · intro hx
    obtain ⟨b, hb⟩ := Option.isSome_iff_exists.mp hx
    simp [glvndFreeEntrypoints, hb, initState]
  · rw [hGen]
    rw [Option.some.injEq, freshEntry_entrypointExec]
    rw [hMid1]
    simp
  · rw [hGen]
    simp [hf1]

/-- C8 witness: concretely, freeing the one-record state returns the module
to the pristine state, a second free changes nothing, and the next
generate succeeds again from slot 0 of the freshly mapped slab. -/
theorem free_teardown_witness :
    demoEnv.allocResult = some (65536, 131072) ∧
    demoEnv.strdupOk = true ∧
    demoState1.entrypointBufferExec.isSome = true ∧
    (glvndFreeEntrypoints (glvndFreeEntrypoints demoState1).1).1 =
      (glvndFreeEntrypoints demoState1).1 ∧
    (glvndFreeEntrypoints (glvndFreeEntrypoints demoState1).1).2 = [] ∧
    glvndFreeEntrypoints initState = (initState, []) ∧
    (glvndFreeEntrypoints demoState1).1 = initState ∧
    (glvndGenerateEntrypoint demoCfg demoEnv [7]
        (glvndFreeEntrypoints demoState1).1).1 =
      some (131072 + thumbBit demoCfg.arch) ∧
    (glvndGenerateEntrypoint demoCfg demoEnv [7]
        (glvndFreeEntrypoints demoState1).1).2.1.entrypoints.length = 1 :=
  ⟨rfl, rfl, by decide,
   (free_teardown demoState1 demoCfg demoEnv [7] 65536 131072 rfl rfl).1,
   (free_teardown demoState1 demoCfg demoEnv [7] 65536 131072 rfl rfl).2.1,
   (free_teardown demoState1 demoCfg demoEnv [7] 65536 131072 rfl rfl).2.2.1,
   (free_teardown demoState1 demoCfg demoEnv [7] 65536 131072 rfl rfl).2.2.2.2.2.1
     (by decide),
   (free_teardown demoState1 demoCfg demoEnv [7] 65536 131072 rfl rfl).2.2.2.2.2.2.1,
   (free_teardown demoState1 demoCfg demoEnv [7] 65536 131072 rfl rfl).2.2.2.2.2.2.2⟩

/-! ### C9 -/

theorem generate_trace_eq_init (cfg : Config) (env : SysEnv)
    (name : List Nat) (st : GenState) :
    (glvndGenerateEntrypoint cfg env name st).2.2 =
      (InitEntrypoints env st).2.2 := by
  rcases hI : InitEntrypoints env st with ⟨ok, st1, evs⟩
  cases ok with
  | false => rw [generate_eq_of_initfail cfg env name st st1 evs hI]
  | true =>
    cases hF : st1.entrypoints.find? (fun e => e.procName == some name) with
    | some entry => rw [generate_eq_of_found cfg env name st st1 evs entry hI hF]
    | none =>
      by_cases hLen : st1.entrypoints.length < GENERATED_ENTRYPOINT_MAX
      · cases hS : env.strdupOk with
        | true => rw [generate_eq_of_insert cfg env name st st1 evs hI hF hLen hS]
        | false => rw [generate_eq_of_strdupfail cfg env name st st1 evs hI hF hLen hS]
      · rw [generate_eq_of_full cfg env name st st1 evs hI hF hLen]

/-- C9: slab initialisation is idempotent and failure-atomic: with the slab
already initialised, ensure succeeds changing nothing and making no OS
call; when the OS allocator fails, ensure reports failure leaving both
base pointers null and the state untouched, and generate returns null with
the state untouched; every generate on an uninitialised slab issues the
one `AllocExecPages` attempt again (the retry); and in every reachable
state the two base pointers are null or non-null together, so
`write_base == null` holds exactly when the slab is uninitialised. -/
theorem slab_init_contract (cfg : Config) (env env' : SysEnv)
    (name name' : List Nat) (st : GenState) :
    (st.entrypointBufferExec.isSome = true →
      InitEntrypoints env st = (true, st, [])) ∧
    (st.entrypointBufferExec = none → st.entrypointBufferWrite = none →
      env.allocResult = none →
      InitEntrypoints env st = (false, st,
        [OSEvent.allocExecPages (STUB_ENTRY_SIZE * GENERATED_ENTRYPOINT_MAX)]) ∧
      glvndGenerateEntrypoint cfg env name st = (none, st,
        [OSEvent.allocExecPages (STUB_ENTRY_SIZE * GENERATED_ENTRYPOINT_MAX)])) ∧
    (st.entrypointBufferExec = none →
      (glvndGenerateEntrypoint cfg env' name' st).2.2 =
        [OSEvent.allocExecPages (STUB_ENTRY_SIZE * GENERATED_ENTRYPOINT_MAX)]) ∧
    (Reachable cfg st →
      (st.entrypointBufferWrite = none ↔ st.entrypointBufferExec = none)) := by
  refine ⟨InitEntrypoints_of_isSome env st, ?_, ?_, ?_⟩
  · intro hE _ hA
    have hI : InitEntrypoints env st = (false, st,
        [OSEvent.allocExecPages (STUB_ENTRY_SIZE * GENERATED_ENTRYPOINT_MAX)]) := by
      unfold InitEntrypoints
      rw [hE, hA]
    exact ⟨hI, generate_eq_of_initfail cfg env name st st
      [OSEvent.allocExecPages (STUB_ENTRY_SIZE * GENERATED_ENTRYPOINT_MAX)] hI⟩
  · intro hE
    rw [generate_trace_eq_init cfg env' name' st]
    unfold InitEntrypoints
    rw [hE]
    cases hA : env'.allocResult with
    | none => rfl
    | some p => obtain ⟨a, b⟩ := p; rfl
  · intro hr
    have hIff := (Invariant_reachable cfg st hr).1
    cases hw : st.entrypointBufferWrite with
    | none =>
      cases he : st.entrypointBufferExec with
      | none => simp
      | some b =>
        rw [hw, he] at hIff
        simp at hIff
    | some a =>
      cases he : st.entrypointBufferExec with
      | none =>
        rw [hw, he] at hIff
        simp at hIff
      | some b => simp

/-- C9 witness: a concrete run of each part: the initialised one-record
state makes ensure a no-op; a failing allocator on the pristine state makes
both ensure and generate fail leaving the state untouched; a generate on
the pristine state carries exactly one allocation attempt in its trace; and
the pristine state's two base pointers are null together. -/
theorem slab_init_contract_witness :
    (demoState1.entrypointBufferExec.isSome = true ∧
     InitEntrypoints demoEnv demoState1 = (true, demoState1, [])) ∧
    (InitEntrypoints ⟨none, true⟩ initState = (false, initState,
       [OSEvent.allocExecPages (STUB_ENTRY_SIZE * GENERATED_ENTRYPOINT_MAX)]) ∧
     glvndGenerateEntrypoint demoCfg ⟨none, true⟩ [1] initState =
       (none, initState,
        [OSEvent.allocExecPages (STUB_ENTRY_SIZE * GENERATED_ENTRYPOINT_MAX)])) ∧
    (glvndGenerateEntrypoint demoCfg demoEnv [1] initState).2.2 =
      [OSEvent.allocExecPages (STUB_ENTRY_SIZE * GENERATED_ENTRYPOINT_MAX)] ∧
    (initState.entrypointBufferWrite = none ↔
      initState.entrypointBufferExec = none) :=
  ⟨⟨by decide,
    (slab_init_contract demoCfg demoEnv demoEnv [1] [1] demoState1).1 (by decide)⟩,
   (slab_init_contract demoCfg ⟨none, true⟩ demoEnv [1] [1] initState).2.1
     rfl rfl rfl,
   (slab_init_contract demoCfg ⟨none, true⟩ demoEnv [1] [1] initState).2.2.1 rfl,
   (slab_init_contract demoCfg ⟨none, true⟩ demoEnv [1] [1] initState).2.2.2
     Reachable.init⟩
